import Mathlib

/-!
Shallow embedding of the s3 package (src/client.go) in Lean 4.

The Go code is translated declaration by declaration:

* `io.Seeker` becomes an abstract state machine `Seeker σ`; the concrete
  seek semantics of `strings.Reader` / `bytes.Reader` is `bytesSeek`.
* `findLen` (client.go lines 103-120) becomes `findLen`, returning the
  Go-style pair (length, error) and threading the seeker state.
* `http.Request` becomes `Request` with a mutable header association
  list; the body is `Option Body`, distinguishing a plain reader, a
  reader of one of the buffer types whose length `http.NewRequest`
  knows, and a seekable reader of some other type.
* `Client` keeps its three nilable fields as `Option`-valued fields;
  calling a nil function in Go is a runtime panic, represented by the
  dedicated constructors of `DoOutcome`.
* `Client.Do` (lines 50-74) becomes `clientDo`, faithfully including
  the inverted error check at line 55 (`if err == nil { return nil, err }`).
* `Signer.Sign` (lines 90-101) becomes `signerSign`.  The types `Keys`
  and `Service` and the method `Service.Sign` live in a source file of
  the repository that is not under src/, so they are modelled from the
  spec where noted.
-/

namespace S3

/-- A byte stream with random access, as seen through `io.Seeker`:
current offset and total size, both in bytes.  Models the state of a
`strings.Reader` or `bytes.Reader`. -/
structure ByteStream where
  pos : Int
  size : Int
deriving DecidableEq, Repr

/-- An `io.Seeker`: `seek offset whence state` returns the new absolute
offset (or an error string) together with the successor state.  Whence
follows the Go constants: 0 = start, 1 = current, 2 = terminal offset. -/
structure Seeker (σ : Type) where
  seek : Int → Nat → σ → Except String Int × σ

/-- The `Seek` method of `strings.Reader` / `bytes.Reader`: compute the
absolute target offset from the whence base, fail on a negative target,
otherwise move there (moving past the size is allowed). -/
def bytesSeek (offset : Int) (whence : Nat) (s : ByteStream) :
    Except String Int × ByteStream :=
  let base : Int := if whence = 0 then 0 else if whence = 1 then s.pos else s.size
  let target := base + offset
  if target < 0 then (.error "negative position", s)
  else (.ok target, { s with pos := target })

/-- `bytesSeek` packaged as a `Seeker`. -/
def bytesSeeker : Seeker ByteStream := ⟨bytesSeek⟩

/-- `findLen` from client.go lines 103-120: record the current offset,
seek to the end, seek back, and return `end - cur`; every failed seek
and the case `cur > end` yield the value 0 and a non-nil error, exactly
as in the source. -/
def findLen {σ : Type} (sk : Seeker σ) (s : σ) : (Int × Option String) × σ :=
  match sk.seek 0 1 s with
  | (.error e, s1) => ((0, some ("cannot seek: " ++ e)), s1)
  | (.ok cur, s1) =>
    match sk.seek 0 2 s1 with
    | (.error e, s2) => ((0, some ("cannot seek: " ++ e)), s2)
    | (.ok endPos, s2) =>
      match sk.seek cur 0 s2 with
      | (.error e, s3) => ((0, some ("cannot seek: " ++ e)), s3)
      | (.ok _, s3) =>
        if cur > endPos then
          ((0, some "cannot find length, current position is past end"), s3)
        else ((endPos - cur, none), s3)

/-- The body of a request: a plain non-seekable `io.Reader`, a
`strings.Reader`-like value (seekable, and of one of the types whose
remaining length `http.NewRequest` reads directly), or a seekable
reader of some other type such as an open file. -/
inductive Body where
  | reader
  | stringsReader (st : ByteStream)
  | file (st : ByteStream)
deriving DecidableEq, Repr

/-- The `io.Seeker` type assertion on a body: the stream state when the
body is seekable, `none` otherwise. -/
def Body.seekState : Body → Option ByteStream
  | .reader => none
  | .stringsReader st => some st
  | .file st => some st

/-- Store an updated stream state back into a body, keeping its kind. -/
def Body.withState : Body → ByteStream → Body
  | .reader, _ => .reader
  | .stringsReader _, st => .stringsReader st
  | .file _, st => .file st

/-- The slice of `http.Request` that client.go reads and writes:
method, URL, header mapping, declared content length, and body
(`none` models a nil body). -/
structure Request where
  method : String
  url : String
  header : List (String × String)
  contentLength : Int
  body : Option Body
deriving DecidableEq, Repr

/-- Presence test on the header mapping, as in `req.Header["Date"]`. -/
def hasHeader (r : Request) (k : String) : Bool :=
  (r.header.lookup k).isSome

/-- `Header.Set`: replace every value stored under the key. -/
def Request.setHeader (r : Request) (k v : String) : Request :=
  { r with header := (k, v) :: r.header.filter (fun p => p.1 != k) }

/-- The `Client` struct (client.go lines 13-27): the three fields are
nilable and none of them is replaced here; `τ` is the type of instants
produced by the injected clock, `ρ` the transport response type.  The
sign function mutates the request and returns a Go error. -/
structure Client (τ ρ : Type) where
  sign : Option (Request → Request × Option String)
  time : Option (Unit → τ)
  client : Option (Request → Option ρ × Option String)

/-- The zero value of `Client`: all three fields nil. -/
def zeroClient (τ ρ : Type) : Client τ ρ :=
  { sign := none, time := none, client := none }

/-- Every way `Client.Do` can leave: the early `return nil, nil` taken
when the length probe succeeds (line 56); the wrapped signing error
(line 67); handing the request to a transport and returning its pair
verbatim (line 73); or a runtime panic from calling the nil `Time` or
nil `Sign` function of a zero-value client. -/
inductive DoOutcome (ρ : Type) where
  | earlyNil (req : Request)
  | signErr (msg : String) (req : Request)
  | sent (req : Request) (resp : Option ρ) (e : Option String)
  | nilTimeFault (req : Request)
  | nilSignFault (req : Request)
deriving DecidableEq, Repr

/-- The content-length stage of `Client.Do` (client.go lines 51-59):
when the declared length is 0 and the body is a non-nil seeker, run
`findLen`, store its value (0 on error) into `ContentLength` and the
moved stream back into the body.  The boolean reports whether the
inverted check `if err == nil { return nil, err }` makes `Do` return
`(nil, nil)` here. -/
def doProbe (req : Request) : Request × Bool :=
  if req.contentLength = 0 then
    match req.body with
    | none => (req, false)
    | some b =>
      match b.seekState with
      | none => (req, false)
      | some st =>
        let ((n, e), st2) := findLen bytesSeeker st
        let req2 := { req with contentLength := n, body := some (b.withState st2) }
        match e with
        | none => (req2, true)
        | some _ => (req2, false)
  else (req, false)

/-- Lines 65-73 of `Client.Do`: call the (nilable) sign function, wrap
its error with the context string, then hand the request to the
configured transport, nil-defaulting only that field. -/
def doSignSend {τ ρ : Type} (defaultClient : Request → Option ρ × Option String)
    (c : Client τ ρ) (req : Request) : DoOutcome ρ :=
  match c.sign with
  | none => .nilSignFault req
  | some sg =>
    let (req2, e) := sg req
    match e with
    | some msg => .signErr ("sign request: " ++ msg) req2
    | none =>
      let send := match c.client with
        | none => defaultClient
        | some cl => cl
      let (resp, e2) := send req2
      .sent req2 resp e2

/-- `Client.Do` (client.go lines 50-74).  `format` stands for Go
`t.Format(http.TimeFormat)` applied to an instant, and `defaultClient`
for `http.DefaultClient` — the only collaborator `Do` nil-defaults. -/
def clientDo {τ ρ : Type} (format : τ → String)
    (defaultClient : Request → Option ρ × Option String)
    (c : Client τ ρ) (req : Request) : DoOutcome ρ :=
  let (req1, early) := doProbe req
  if early then .earlyNil req1
  else if hasHeader req1 "Date" then doSignSend defaultClient c req1
  else if hasHeader req1 "X-Amz-Date" then doSignSend defaultClient c req1
  else
    match c.time with
    | none => .nilTimeFault req1
    | some t => doSignSend defaultClient c (req1.setHeader "Date" (format (t ())))

/-- `http.NewRequest` as used by `Get` and `Put`: parse the URL (the
parser is abstracted to a validity predicate), install the method
verbatim, start with an empty header mapping, and set `ContentLength`
to the remaining bytes when the body is one of the reader types the
constructor special-cases, 0 otherwise. -/
def newRequest (urlOK : String → Bool) (method url : String) (body : Option Body) :
    Except String Request :=
  if urlOK url then
    .ok { method := method, url := url, header := [],
          contentLength :=
            match body with
            | some (.stringsReader st) => max (st.size - st.pos) 0
            | _ => 0,
          body := body }
  else .error "parse URL error"

/-- The request built by `Client.Put` (client.go lines 37-43): note the
hard-coded method string `"GET"` at line 38. -/
def putRequest (urlOK : String → Bool) (url : String) (body : Option Body) :
    Except String Request :=
  newRequest urlOK "GET" url body

/-- `Client.Put`: build the request, propagate a construction error,
otherwise hand the request to `Do`. -/
def clientPut {τ ρ : Type} (urlOK : String → Bool) (format : τ → String)
    (defaultClient : Request → Option ρ × Option String)
    (c : Client τ ρ) (url : String) (body : Option Body) :
    Except String (DoOutcome ρ) :=
  (putRequest urlOK url body).map (clientDo format defaultClient c)

/-- `Client.Get` (client.go lines 29-35). -/
def clientGet {τ ρ : Type} (urlOK : String → Bool) (format : τ → String)
    (defaultClient : Request → Option ρ × Option String)
    (c : Client τ ρ) (url : String) : Except String (DoOutcome ρ) :=
  (newRequest urlOK "GET" url none).map (clientDo format defaultClient c)

/-- Modelled from the spec: the credential pair (spec section 3,
CredentialPair).  The Go declaration of `Keys` is in a repository file
not under src/; example_test.go shows fields AccessKey and SecretKey,
and the spec adds the optional security token. -/
structure Keys where
  accessKey : String
  secretKey : String
  securityToken : String
deriving DecidableEq, Repr

/-- Modelled from the spec: the `Service` collaborator whose `Sign`
method (spec sections 4.1-4.3) mutates the request, writing the
authorization material derived from the request and the keys.  Its Go
code is not under src/, so it is abstracted to an arbitrary request
transformer; `Signer.Sign` in client.go treats it opaquely anyway. -/
structure Service where
  sign : Request → Keys → Request

/-- The `Signer` struct (client.go lines 82-85): both fields nilable. -/
structure Signer where
  keys : Option Keys
  service : Option Service

/-- Result of `Signer.Sign`: the mutated request with the returned Go
error, or a nil-pointer dereference panic (from `*keys` when both the
field and the default are nil, or from the nil service method call). -/
inductive SignOutcome where
  | ok (req : Request) (e : Option String)
  | nilDeref

/-- `Signer.Sign` (client.go lines 90-101): resolve the keys field
against `DefaultKeys` and the service field against `DefaultService`
(both globals passed here as parameters), call the resolved service
with the resolved keys, and return nil.  There is no credential
validation and no error path: a nil resolved pointer is a runtime
panic, not an error value. -/
def signerSign (defaultKeys : Option Keys) (defaultService : Option Service)
    (s : Signer) (req : Request) : SignOutcome :=
  let keys := match s.keys with
    | some k => some k
    | none => defaultKeys
  let sv := match s.service with
    | some v => some v
    | none => defaultService
  match keys with
  | none => .nilDeref
  | some k =>
    match sv with
    | none => .nilDeref
    | some v => .ok (v.sign req k) none

/-! Concrete fixtures used in the scenario theorems: an injected clock
over `Unit` instants whose HTTP-formatted value is a fixed string, a
transport that answers every request, a sign function that succeeds
without touching the request, and fully populated clients. -/

/-- A fixed HTTP-formatted instant, standing for `T.Format(http.TimeFormat)`. -/
def demoFormat : Unit → String := fun _ => "Mon, 02 Jan 2006 15:04:05 GMT"

/-- A transport that returns a response and a nil error for every request. -/
def demoTransport : Request → Option Unit × Option String := fun _ => (some (), none)

/-- A sign function that leaves the request unchanged and returns nil. -/
def okSign : Request → Request × Option String := fun r => (r, none)

/-- A fully populated client: succeeding signer, fixed clock, transport set. -/
def demoClient : Client Unit Unit :=
  { sign := some okSign, time := some (fun _ => ()), client := some demoTransport }

/-- A client whose sign function rejects every request with error "boom". -/
def failSignClient : Client Unit Unit :=
  { sign := some (fun r => (r, some "boom")), time := some (fun _ => ()),
    client := some demoTransport }

/-- Request for the C1 scenario: declared length 0, seekable 5-byte body
at offset 0, no headers. -/
def c1Req : Request :=
  { method := "PUT", url := "https://example.s3.amazonaws.com/foo", header := [],
    contentLength := 0, body := some (.stringsReader { pos := 0, size := 5 }) }

/-- Request for the C3 scenario: seekable body whose current offset 7 is
past its size 5, so `findLen` reports the past-end error. -/
def c3Req : Request :=
  { method := "PUT", url := "https://example.s3.amazonaws.com/bar", header := [],
    contentLength := 0, body := some (.stringsReader { pos := 7, size := 5 }) }

/-- Request for the C4 scenario: no Date-family header, and a seekable
3-byte body at offset 0 so that the probe succeeds. -/
def c4Req : Request :=
  { method := "GET", url := "https://example.s3.amazonaws.com/baz", header := [],
    contentLength := 0, body := some (.stringsReader { pos := 0, size := 3 }) }

/-- Request for the C6 witness: nil body, no headers, length 0. -/
def c6Req : Request :=
  { method := "GET", url := "https://example.s3.amazonaws.com/c6", header := [],
    contentLength := 0, body := none }

/-- Request for the C8 scenario: Date already set, declared length 0,
seekable 4-byte body at offset 0 so the probe succeeds. -/
def c8Req : Request :=
  { method := "GET", url := "https://example.s3.amazonaws.com/qux",
    header := [("Date", "Mon, 02 Jan 2006 15:04:05 GMT")],
    contentLength := 0, body := some (.stringsReader { pos := 0, size := 4 }) }

/-- The request `Put` builds in the C5 witness scenario. -/
def c5Req : Request :=
  { method := "GET", url := "https://example.s3.amazonaws.com/w5", header := [],
    contentLength := 0, body := none }

/-- A credential pair with every component empty. -/
def emptyKeys : Keys :=
  { accessKey := "", secretKey := "", securityToken := "" }

/-- Modelled from the spec: a concrete service value whose sign method
writes the Authorization header in the documented shape
scheme, access key id, colon, signature (spec section 4.3). -/
def demoService : Service :=
  ⟨fun r k => r.setHeader "Authorization" ("AWS " ++ k.accessKey ++ ":signature")⟩

/-- Request for the C2 counterexample. -/
def c2Req : Request :=
  { method := "PUT", url := "https://example.s3.amazonaws.com/c2", header := [],
    contentLength := 12, body := none }

/-! Helper lemmas about the concrete seek semantics. -/

/-- Seeking to the current offset: `Seek(0, 1)` answers the current
offset and leaves the stream unchanged, provided the offset is not
negative. -/
theorem bytesSeek_cur (st : ByteStream) (h : 0 ≤ st.pos) :
    bytesSeek 0 1 st = (.ok st.pos, st) := by
  show (if st.pos + 0 < 0 then (Except.error "negative position", st)
        else (Except.ok (st.pos + 0), { st with pos := st.pos + 0 })) = (.ok st.pos, st)
  rw [if_neg (by omega)]
  rw [Int.add_zero]

/-- Seeking to the end: `Seek(0, 2)` answers the size and moves there,
provided the size is not negative. -/
theorem bytesSeek_end (st : ByteStream) (h : 0 ≤ st.size) :
    bytesSeek 0 2 st = (.ok st.size, { st with pos := st.size }) := by
  show (if st.size + 0 < 0 then (Except.error "negative position", st)
        else (Except.ok (st.size + 0), { st with pos := st.size + 0 })) = _
  rw [if_neg (by omega)]
  rw [Int.add_zero]

/-- Seeking from the start: `Seek(p, 0)` moves to offset `p` when `p`
is not negative. -/
theorem bytesSeek_start (p : Int) (st : ByteStream) (h : 0 ≤ p) :
    bytesSeek p 0 st = (.ok p, { st with pos := p }) := by
  show (if 0 + p < 0 then (Except.error "negative position", st)
        else (Except.ok (0 + p), { st with pos := 0 + p })) = _
  rw [if_neg (by omega)]
  rw [Int.zero_add]

/-! The claim theorems. -/

/-- Claim C1: with a declared content length of 0 and a seekable body of
5 bytes at offset 0, all seeks succeeding, `Do` should set ContentLength
to 5, restore the stream to offset 0, and proceed to timestamp
defaulting, signing and sending.  The code does set ContentLength to 5
and restore the offset, but the inverted check at client.go line 55
(`if err == nil { return nil, err }`) then makes `Do` return
`(nil, nil)` instead of proceeding: the outcome is the early return,
with no Date header added, nothing signed and nothing sent. -/
theorem do_returns_early_on_successful_probe :
    clientDo demoFormat demoTransport demoClient c1Req =
      .earlyNil { method := "PUT", url := "https://example.s3.amazonaws.com/foo",
                  header := [], contentLength := 5,
                  body := some (.stringsReader { pos := 0, size := 5 }) } := by
  rfl

/-- Claim C3: when the probe fails (here: current offset 7 past size 5),
`Do` should surface the seek error and never send the request.  Because
of the inverted check at client.go line 55, the error branch is the one
that falls through: the error is dropped, ContentLength is set to the 0
that `findLen` returned alongside the error, and the request is signed
and handed to the transport anyway. -/
theorem do_swallows_seek_error_and_sends :
    clientDo demoFormat demoTransport demoClient c3Req =
      .sent { method := "PUT", url := "https://example.s3.amazonaws.com/bar",
              header := [("Date", "Mon, 02 Jan 2006 15:04:05 GMT")],
              contentLength := 0,
              body := some (.stringsReader { pos := 7, size := 5 }) }
        (some ()) none := by
  rfl

/-- Claim C4: a request with neither Date nor X-Amz-Date should leave
`Do` with a Date header formatted from the injected clock.  On a request
whose successful length probe triggers the early `return nil, nil` of
client.go line 55, `Do` exits before the timestamp stage and the
returned request still has no Date header. -/
theorem do_misses_date_header_on_probe_return :
    clientDo demoFormat demoTransport demoClient c4Req =
      .earlyNil { method := "GET", url := "https://example.s3.amazonaws.com/baz",
                  header := [], contentLength := 3,
                  body := some (.stringsReader { pos := 0, size := 3 }) } ∧
    hasHeader { method := "GET", url := "https://example.s3.amazonaws.com/baz",
                header := [], contentLength := 3,
                body := some (.stringsReader { pos := 0, size := 3 }) } "Date" = false := by
  exact ⟨rfl, rfl⟩

/-- Claim C8: on a request whose sign function returns a non-nil error,
`Do` should return that error wrapped as "sign request: " with the cause
and not contact the transport.  Here the sign function fails on every
request (second conjunct), yet `Do` never reaches it: the successful
probe takes the early `return nil, nil` of client.go line 55, so the
outcome is the early return, not the wrapped signing error the claim
requires. -/
theorem do_skips_failing_signer_on_probe_return :
    clientDo demoFormat demoTransport failSignClient c8Req =
      .earlyNil { method := "GET", url := "https://example.s3.amazonaws.com/qux",
                  header := [("Date", "Mon, 02 Jan 2006 15:04:05 GMT")],
                  contentLength := 4,
                  body := some (.stringsReader { pos := 0, size := 4 }) } ∧
    ((fun r => (r, some "boom")) c8Req).2 = some "boom" := by
  exact ⟨rfl, rfl⟩

/-- Claim C5: `Client.Put` builds its underlying request with the
hard-coded method string "GET" of client.go line 38, not "PUT", and
hands exactly that request to `Do`. -/
theorem clientPut_builds_get_method {τ ρ : Type} (urlOK : String → Bool)
    (format : τ → String) (dflt : Request → Option ρ × Option String)
    (c : Client τ ρ) (url : String) (body : Option Body) (req : Request)
    (h : putRequest urlOK url body = .ok req) :
    req.method = "GET" ∧ req.method ≠ "PUT" ∧
      clientPut urlOK format dflt c url body = .ok (clientDo format dflt c req) := by
  have hm : req.method = "GET" := by
    unfold putRequest newRequest at h
    split at h
    · injection h with h2
      rw [← h2]
    · exact Except.noConfusion h
  refine ⟨hm, by rw [hm]; decide, ?_⟩
  unfold clientPut
  rw [h]
  rfl

/-- Witness for claim C5 at a concrete URL and nil body. -/
theorem clientPut_builds_get_method_witness :
    putRequest (fun _ => true) "https://example.s3.amazonaws.com/w5" none = .ok c5Req ∧
    c5Req.method = "GET" ∧ c5Req.method ≠ "PUT" ∧
    clientPut (fun _ => true) demoFormat demoTransport demoClient
        "https://example.s3.amazonaws.com/w5" none =
      .ok (clientDo demoFormat demoTransport demoClient c5Req) := by
  have h := clientPut_builds_get_method (fun _ => true) demoFormat demoTransport
    demoClient "https://example.s3.amazonaws.com/w5" none c5Req rfl
  exact ⟨rfl, h.1, h.2.1, h.2.2⟩

/-- Claim C6: `Do` never substitutes the documented defaults for the
`Sign` and `Time` function fields; only the `Client` field is
nil-defaulted.  On a request with nil body and no Date-family header:
a zero-value client reaches the nil `Time` function; a client with only
a clock reaches the nil `Sign` function; and a client with clock and
signer but nil transport field falls back to the default transport. -/
theorem clientDo_does_not_default_fns {τ ρ : Type} (format : τ → String)
    (dflt : Request → Option ρ × Option String) (req : Request)
    (hb : req.body = none)
    (hd : hasHeader req "Date" = false)
    (hx : hasHeader req "X-Amz-Date" = false) :
    clientDo format dflt (zeroClient τ ρ) req = .nilTimeFault req ∧
    (∀ t : Unit → τ,
      clientDo format dflt { sign := none, time := some t, client := none } req =
        .nilSignFault (req.setHeader "Date" (format (t ())))) ∧
    (∀ (t : Unit → τ) (sg : Request → Request × Option String)
        (r2 : Request) (resp : Option ρ) (e2 : Option String),
      sg (req.setHeader "Date" (format (t ()))) = (r2, none) →
      dflt r2 = (resp, e2) →
      clientDo format dflt { sign := some sg, time := some t, client := none } req =
        .sent r2 resp e2) := by
  have hprobe : doProbe req = (req, false) := by
    unfold doProbe
    rw [hb]
    split <;> rfl
  refine ⟨?_, ?_, ?_⟩
  · simp [clientDo, hprobe, hd, hx, zeroClient]
  · intro t
    simp [clientDo, hprobe, hd, hx, doSignSend]
  · intro t sg r2 resp e2 hsg hdf
    simp [clientDo, hprobe, hd, hx, doSignSend, hsg, hdf]

/-- Witness for claim C6: the three behaviors at a concrete request. -/
theorem clientDo_does_not_default_fns_witness :
    c6Req.body = none ∧
    clientDo demoFormat demoTransport (zeroClient Unit Unit) c6Req =
      .nilTimeFault c6Req ∧
    clientDo demoFormat demoTransport
        { sign := none, time := some (fun _ => ()), client := none } c6Req =
      .nilSignFault (c6Req.setHeader "Date" "Mon, 02 Jan 2006 15:04:05 GMT") ∧
    clientDo demoFormat demoTransport
        { sign := some okSign, time := some (fun _ => ()), client := none } c6Req =
      .sent (c6Req.setHeader "Date" "Mon, 02 Jan 2006 15:04:05 GMT") (some ()) none := by
  have h := clientDo_does_not_default_fns demoFormat demoTransport c6Req rfl rfl rfl
  exact ⟨rfl, h.1, h.2.1 (fun _ => ()),
    h.2.2 (fun _ => ()) okSign
      (c6Req.setHeader "Date" "Mon, 02 Jan 2006 15:04:05 GMT") (some ()) none rfl rfl⟩

/-- Claim C7: for every seeker on which the three seeks of `findLen`
succeed — reading the current offset `cur`, reading the terminal offset
`endPos`, then seeking back to `cur` — `findLen` returns `endPos - cur`
when the current offset is not past the end, and returns the past-end
error instead of a length when it is; either way the stream is left in
the state produced by the restoring third seek. -/
theorem findLen_computes_end_minus_cur {σ : Type} (sk : Seeker σ)
    (s0 s1 s2 s3 : σ) (cur endPos back : Int)
    (h1 : sk.seek 0 1 s0 = (.ok cur, s1))
    (h2 : sk.seek 0 2 s1 = (.ok endPos, s2))
    (h3 : sk.seek cur 0 s2 = (.ok back, s3)) :
    (cur ≤ endPos → findLen sk s0 = ((endPos - cur, none), s3)) ∧
    (cur > endPos →
      findLen sk s0 =
        ((0, some "cannot find length, current position is past end"), s3)) := by
  constructor
  · intro h
    simp only [findLen, h1, h2, h3]
    rw [if_neg (by omega)]
  · intro h
    simp only [findLen, h1, h2, h3]
    rw [if_pos h]

/-- Witness for claim C7: a 5-byte stream at offset 0; the three seeks
succeed and `findLen` answers 5, restoring offset 0. -/
theorem findLen_computes_end_minus_cur_witness :
    bytesSeeker.seek 0 1 { pos := 0, size := 5 } =
      (.ok 0, { pos := 0, size := 5 }) ∧
    bytesSeeker.seek 0 2 { pos := 0, size := 5 } =
      (.ok 5, { pos := 5, size := 5 }) ∧
    bytesSeeker.seek 0 0 { pos := 5, size := 5 } =
      (.ok 0, { pos := 0, size := 5 }) ∧
    findLen bytesSeeker { pos := 0, size := 5 } =
      ((5, none), { pos := 0, size := 5 }) := by
  have h := findLen_computes_end_minus_cur bytesSeeker
    { pos := 0, size := 5 } { pos := 0, size := 5 } { pos := 5, size := 5 }
    { pos := 0, size := 5 } 0 5 0 rfl rfl rfl
  exact ⟨rfl, rfl, rfl, h.1 (by decide)⟩

/-- Claim C9: `Signer.Sign` resolves its collaborators as its own Keys
field when non-nil, else the process-wide default keys, and its own
Service field when non-nil, else the default service, and then performs
the signing call with exactly the resolved pair. -/
theorem signerSign_resolution (dk : Keys) (ds : Service) (s : Signer) (req : Request) :
    signerSign (some dk) (some ds) s req =
      .ok ((s.service.getD ds).sign req (s.keys.getD dk)) none := by
  obtain ⟨k, v⟩ := s
  cases k <;> cases v <;> rfl

/-- Claim C10: on a byte stream whose offset and size are not negative
(exactly when the first two seeks of `findLen` succeed), `findLen`
leaves the stream restored to its original state — the restoring seek at
client.go line 112 runs before the past-end check at line 116, so this
holds in the success case and in the past-end error case alike. -/
theorem findLen_restores_stream (st : ByteStream) (hp : 0 ≤ st.pos)
    (hs : 0 ≤ st.size) :
    (findLen bytesSeeker st).2 = st := by
  have h1 : bytesSeeker.seek 0 1 st = (.ok st.pos, st) := bytesSeek_cur st hp
  have h2 : bytesSeeker.seek 0 2 st = (.ok st.size, { st with pos := st.size }) :=
    bytesSeek_end st hs
  have h3 : bytesSeeker.seek st.pos 0 { st with pos := st.size } = (.ok st.pos, st) :=
    bytesSeek_start st.pos { st with pos := st.size } hp
  simp only [findLen, h1, h2, h3]
  split <;> rfl

/-- Witness for claim C10 in the error case: offset 7 past size 3, and
the stream still comes back at offset 7. -/
theorem findLen_restores_stream_witness :
    (0 : Int) ≤ (7 : Int) ∧ (0 : Int) ≤ (3 : Int) ∧
    (findLen bytesSeeker { pos := 7, size := 3 }).2 = { pos := 7, size := 3 } := by
  exact ⟨by decide, by decide,
    findLen_restores_stream { pos := 7, size := 3 } (by decide) (by decide)⟩

/-- Claim C2 counterexample: with the signer's Keys field nil and the
process-wide default pair present but empty, `Signer.Sign` does not
return a MissingCredentials-style error: it signs with the empty pair
and returns nil, leaving an Authorization header on the request. -/
theorem signerSign_empty_keys_signs_anyway :
    signerSign (some emptyKeys) (some demoService)
        { keys := none, service := none } c2Req =
      .ok (c2Req.setHeader "Authorization" "AWS :signature") none := by
  rfl

/-- Claim C2 amended: `Signer.Sign` never returns an error value.  Every
run either dereferences a nil pointer (a runtime panic, taken when the
resolved keys or service pointer is nil) or returns the signed request
together with Go nil; in particular, when both the Keys field and the
default keys are nil the outcome is the nil dereference, not a
MissingCredentials error, and an empty resolved pair is signed with
rather than rejected. -/
theorem signerSign_never_errors (dk : Option Keys) (ds : Option Service)
    (s : Signer) (req : Request) :
    (signerSign dk ds s req = .nilDeref ∨
      ∃ r, signerSign dk ds s req = .ok r none) ∧
    signerSign none ds { keys := none, service := s.service } req = .nilDeref := by
  constructor
  · obtain ⟨k, v⟩ := s
    cases k <;> cases v <;> cases dk <;> cases ds <;>
      first
        | exact Or.inl rfl
        | exact Or.inr ⟨_, rfl⟩
  · rfl

end S3
